import Mathlib

/-!
Shallow embedding of the gesture-to-drag daemon (linux-3-finger-drag):
the delay-controller task (`handle_mouse_up_timeout` / `run_timer` in
src/runtime/virtual_trackpad.rs), the virtual-trackpad sink operations,
the configuration loader (src/init/config.rs), and the supervision and
shutdown paths of src/main.rs.
-/

/-- Control signals sent from the gesture translator to the delay
controller (the `ControlSignal` alphabet used in
src/runtime/virtual_trackpad.rs). -/
inductive ControlSignal
  | RestartTimer
  | CancelTimer
  | CancelMouseUp
  | TerminateThread
deriving DecidableEq, Repr

/-- Observable wake-ups of the controller task: a channel receive result
(`chan (some s)` a signal, `chan none` a closed channel) or the expiry
of the armed sleep (`timeout`). In the idle outer loop no sleep is
armed, so a `timeout` event cannot occur there. A finite list of `Ev`
is one resolution of the races in the task's execution. -/
inductive Ev
  | chan (s : Option ControlSignal)
  | timeout
deriving DecidableEq, Repr

/-- Return value of the embedded `run_timer`: either the Rust function
returned (with the `Option ControlSignal` it produced), or the event
trace ended while the race was still running. -/
inductive TimerRet
  | ret (r : Option ControlSignal)
  | outOfEvents
deriving DecidableEq, Repr

/-- Output of the embedded `run_timer`: the durations of the sleeps it
armed (one full `delay` per loop iteration), how many trace events it
consumed, and its return value. -/
structure TimerOut where
  sleeps : List Nat
  consumed : Nat
  ret : TimerRet
deriving DecidableEq, Repr

/-- Embedding of `VirtualTrackpad::run_timer` (virtual_trackpad.rs).
Each loop iteration arms a sleep of the full `delay` and races it
against `rx.recv()`. Sleep expiry and a closed channel both make the
select produce `None`, which the trailing `?` propagates as a `None`
return; `RestartTimer` loops again (re-arming the full delay); any
other signal is returned as `Some signal`. -/
def run_timer (delay : Nat) : List Ev → TimerOut
  | [] => ⟨[delay], 0, .outOfEvents⟩
  | .timeout :: _ => ⟨[delay], 1, .ret none⟩
  | .chan none :: _ => ⟨[delay], 1, .ret none⟩
  | .chan (some .RestartTimer) :: rest =>
      let o := run_timer delay rest
      ⟨delay :: o.sleeps, o.consumed + 1, o.ret⟩
  | .chan (some s) :: _ => ⟨[delay], 1, .ret (some s)⟩

/-- Termination status of the embedded controller task. `exitedOk` is
the Rust `Ok(())` return; `outOfEvents` means the finite trace ended
while the task was still looping; `noTimerArmed` marks the impossible
trace shape of a `timeout` event arriving in the idle outer loop. -/
inductive Status
  | exitedOk
  | outOfEvents
  | noTimerArmed
deriving DecidableEq, Repr

/-- Embedding of `VirtualTrackpad::handle_mouse_up_timeout`
(virtual_trackpad.rs).  Runs the controller task over a finite event
trace and returns how many `mouse_up` (release) emissions it wrote
together with its termination status. The outer loop blocks on
`rx.recv()`: `None` (closed) breaks with `Ok`, `CancelTimer` writes a
release and continues, `CancelMouseUp` continues, `TerminateThread`
breaks with `Ok`, and `RestartTimer` enters the armed inner loop
(`run_timer`). When `run_timer` returns `Some CancelMouseUp` the loop
continues without a release; `Some TerminateThread` breaks with `Ok`;
every other return (`None` from sleep expiry or a closed channel, and
`Some CancelTimer`) falls through to a release emission. -/
def handle_mouse_up_timeout (delay : Nat) : List Ev → Nat × Status
  | [] => (0, .outOfEvents)
  | .timeout :: _ => (0, .noTimerArmed)
  | .chan none :: _ => (0, .exitedOk)
  | .chan (some .RestartTimer) :: rest =>
      let o := run_timer delay rest
      match o.ret with
      | .outOfEvents => (0, .outOfEvents)
      | .ret (some .CancelMouseUp) =>
          handle_mouse_up_timeout delay (rest.drop o.consumed)
      | .ret (some .TerminateThread) => (0, .exitedOk)
      | .ret _ =>
          let p := handle_mouse_up_timeout delay (rest.drop o.consumed)
          (p.1 + 1, p.2)
  | .chan (some .CancelTimer) :: rest =>
      let p := handle_mouse_up_timeout delay rest
      (p.1 + 1, p.2)
  | .chan (some .CancelMouseUp) :: rest =>
      handle_mouse_up_timeout delay rest
  | .chan (some .TerminateThread) :: _ => (0, .exitedOk)
termination_by es => es.length
decreasing_by all_goals (simp [List.length_drop]; try omega)

/-- Dispatch of a finished `run_timer` race inside the outer loop of
`handle_mouse_up_timeout`, named so the armed phase can be referred to
on its own: `trace` is the trace the race ran over and `o` its output. -/
def handleTimerResult (delay : Nat) (trace : List Ev) (o : TimerOut) : Nat × Status :=
  match o.ret with
  | .outOfEvents => (0, .outOfEvents)
  | .ret (some .CancelMouseUp) =>
      handle_mouse_up_timeout delay (trace.drop o.consumed)
  | .ret (some .TerminateThread) => (0, .exitedOk)
  | .ret _ =>
      let p := handle_mouse_up_timeout delay (trace.drop o.consumed)
      (p.1 + 1, p.2)

/-- Events written to the uinput device, at the granularity the claims
need (button key events, relative-axis events, sync reports). -/
inductive EmitEv
  | buttonDown
  | buttonUp
  | relX (v : Int)
  | relY (v : Int)
  | syncReport
deriving DecidableEq, Repr

/-- State of the embedded `VirtualTrackpad`: the `mouse_is_down` flag
(the uinput handle itself is abstracted; whether a write to it
succeeds is an explicit argument of each operation). -/
structure VirtualTrackpad where
  mouse_is_down : Bool
deriving DecidableEq, Repr

/-- Embedding of `UInputHandle::write`: succeeds and reports the
events written, or fails with an I/O error (modelled as `Unit`). -/
def write_events (writeOk : Bool) (events : List EmitEv) :
    Except Unit (List EmitEv) :=
  if writeOk then .ok events else .error ()

/-- Embedding of `VirtualTrackpad::mouse_down` (virtual_trackpad.rs):
writes button-down plus sync, and only after the write succeeds sets
`mouse_is_down := true`; the `?` on a write error returns the error
with the state untouched. -/
def mouse_down (writeOk : Bool) (v : VirtualTrackpad) :
    VirtualTrackpad × Except Unit (List EmitEv) :=
  match write_events writeOk [.buttonDown, .syncReport] with
  | .error e => (v, .error e)
  | .ok evs => ({ mouse_is_down := true }, .ok evs)

/-- Embedding of `VirtualTrackpad::mouse_up` (virtual_trackpad.rs):
writes button-up plus sync unconditionally (the body never consults
`mouse_is_down`), and only after the write succeeds sets
`mouse_is_down := false`; the `?` on a write error returns the error
with the state untouched. -/
def mouse_up (writeOk : Bool) (v : VirtualTrackpad) :
    VirtualTrackpad × Except Unit (List EmitEv) :=
  match write_events writeOk [.buttonUp, .syncReport] with
  | .error e => (v, .error e)
  | .ok evs => ({ mouse_is_down := false }, .ok evs)

/-- Saturating conversion of a mathematical integer to the i32 range,
matching Rust float-to-int `as i32` semantics on finite values. -/
def toI32saturating (n : Int) : Int :=
  max (-(2 ^ 31)) (min (2 ^ 31 - 1) n)

/-- Conversion of one accumulator value to an emitted integer inside
`mouse_move_relative`: floor when strictly positive, ceil otherwise
(truncation toward zero), then the `as i32` saturating cast. -/
def rel_to_int (a : ℚ) : Int :=
  if 0 < a then toI32saturating ⌊a⌋ else toI32saturating ⌈a⌉

/-- Embedding of `VirtualTrackpad::mouse_move_relative`
(virtual_trackpad.rs): converts both real deltas with `rel_to_int`
and writes relative-X, relative-Y, sync in that order. -/
def mouse_move_relative (writeOk : Bool) (x_rel y_rel : ℚ) :
    Except Unit (List EmitEv) :=
  write_events writeOk
    [.relX (rel_to_int x_rel), .relY (rel_to_int y_rel), .syncReport]

/-- Log levels of the configuration (config.rs `LogLevel`). -/
inductive LogLevel
  | OFF | ERROR | WARN | INFO | DEBUG | TRACE
deriving DecidableEq, Repr

/-- Embedded `Configuration` (config.rs), durations in milliseconds. -/
structure Configuration where
  acceleration : ℚ
  drag_end_delay : Nat
  log_file : String
  log_level : LogLevel
  response_time : Nat
deriving DecidableEq, Repr

/-- Default value function `default_1` of config.rs. -/
def default_1 : ℚ := 1

/-- Default value function `default_0ms` of config.rs. -/
def default_0ms : Nat := 0

/-- Default value function `default_5ms` of config.rs. -/
def default_5ms : Nat := 5

/-- Default value function `default_stdout` of config.rs. -/
def default_stdout : String := "stdout"

/-- Default value function `default_info` of config.rs. -/
def default_info : LogLevel := .INFO

/-- Fields present in the user's JSON configuration file: `none` marks
a missing field; `unknown_fields` carries any field names not declared
by `Configuration` (serde ignores them, since `Configuration` does not
opt into denying unknown fields). -/
structure ConfigJson where
  acceleration : Option ℚ
  drag_end_delay : Option Nat
  log_file : Option String
  log_level : Option LogLevel
  response_time : Option Nat
  unknown_fields : List String
deriving DecidableEq, Repr

/-- Embedding of serde deserialization of `Configuration` under the
per-field attributes of config.rs: each missing field takes its
default function's value; unknown fields play no part. -/
def deserialize_Configuration (j : ConfigJson) : Configuration :=
  { acceleration := j.acceleration.getD default_1
    drag_end_delay := j.drag_end_delay.getD default_0ms
    log_file := j.log_file.getD default_stdout
    log_level := j.log_level.getD default_info
    response_time := j.response_time.getD default_5ms }

/-- Embedding of `impl Default for Configuration` (config.rs). -/
def default_configuration : Configuration :=
  { acceleration := 1
    drag_end_delay := 0
    log_file := "stdout"
    log_level := .INFO
    response_time := 5 }

/-- Embedding of `init_cfg` (config.rs): a successfully read and
parsed file is deserialized; any error (absent file, unreadable file,
malformed JSON) falls back to the full default configuration. The
function always returns a configuration, so the program continues. -/
def init_cfg (parse_result : Except String ConfigJson) : Configuration :=
  match parse_result with
  | .ok j => deserialize_Configuration j
  | .error _ => default_configuration

/-- Cleanup and shutdown actions of main.rs, in order performed. -/
inductive Act
  | sendTerminate
  | awaitCtrl
  | finalRelease
  | destroyDev
deriving DecidableEq, BEq, Repr

/-- Result of one supervision check of the delay-controller task:
keep looping, propagate the task's error, or panic. -/
inductive SuperviseResult (e : Type)
  | continueLoop
  | propagate (err : e)
  | panics
deriving DecidableEq, Repr

/-- Embedding of Rust `Result::unwrap_err`: `none` models the panic
raised on an `Ok` value. -/
def unwrap_err {e a : Type} : Except e a → Option e
  | .error err => some err
  | .ok _ => none

/-- Embedding of the supervision check in `run_main_event_loop`
(main.rs lines 149 to 154): when the controller task is finished, its
result is passed to `unwrap_err` and the resulting error is returned
from the loop; a finished `Ok` result therefore panics rather than
propagating. -/
def check_listener {e a : Type} (finished : Bool) (result : Except e a) :
    SuperviseResult e :=
  if finished then
    match unwrap_err result with
    | some err => .propagate err
    | none => .panics
  else .continueLoop

/-- Embedding of one batch body of the main event loop (main.rs lines
131 to 154): a failed `dispatch` and each failed `translate_gesture`
are logged and swallowed, then the finished-listener check runs. -/
def process_batch {e a : Type} (dispatch_ok : Bool) (translate_ok : List Bool)
    (finished : Bool) (listener_result : Except e a) :
    List String × SuperviseResult e :=
  let dispatch_log := if dispatch_ok then [] else ["dispatch error logged"]
  let translate_log := (translate_ok.filter (fun ok => !ok)).map
    (fun _ => "translate error logged")
  (dispatch_log ++ translate_log, check_listener finished listener_result)

/-- Embedding of the shutdown tail of `run_main_event_loop` (main.rs
lines 166 to 173): send `TerminateThread`, await the controller task,
and return the translator (`true`) only when both steps succeed. -/
def run_main_tail (send_ok join_ok ctrl_ok : Bool) : List Act × Bool :=
  if !send_ok then ([.sendTerminate], false)
  else if !join_ok then ([.sendTerminate, .awaitCtrl], false)
  else if !ctrl_ok then ([.sendTerminate, .awaitCtrl], false)
  else ([.sendTerminate, .awaitCtrl], true)

/-- Embedding of the cleanup block of `main` (main.rs lines 81 to 88):
only an `Ok` main result reaches the defensive `mouse_up` and the
`destruct`; an error result is returned with no cleanup action at
all. A failed defensive `mouse_up` returns early, skipping
`destruct`. -/
def main_cleanup (release_ok destroy_ok : Bool) (main_ok : Bool) :
    List Act × Bool :=
  if main_ok then
    if !release_ok then ([.finalRelease], false)
    else if !destroy_ok then ([.finalRelease, .destroyDev], false)
    else ([.finalRelease, .destroyDev], true)
  else ([], false)

/-- Composition of the loop's shutdown tail with the cleanup block of
`main`: the full clean-exit path. -/
def clean_exit (send_ok join_ok ctrl_ok release_ok destroy_ok : Bool) :
    List Act × Bool :=
  let t := run_main_tail send_ok join_ok ctrl_ok
  let c := main_cleanup release_ok destroy_ok t.2
  (t.1 ++ c.1, c.2)

theorem run_timer_sleeps_head (d : Nat) (es : List Ev) :
    (run_timer d es).sleeps.head? = some d := by
  match es with
  | [] => rfl
  | .timeout :: _ => rfl
  | .chan none :: _ => rfl
  | .chan (some .RestartTimer) :: rest => simp [run_timer]
  | .chan (some .CancelTimer) :: _ => rfl
  | .chan (some .CancelMouseUp) :: _ => rfl
  | .chan (some .TerminateThread) :: _ => rfl

/-- C1: while the release timer is armed, the race resolves as the spec
says: sleep expiry emits one release and returns control to the idle
outer loop; `RestartTimer` re-arms the sleep with the full
`drag_end_delay` in front and the timer stays armed (the armed phase
behaves exactly as if it had just been entered); `CancelMouseUp`
returns to the outer loop with no release; `TerminateThread`
terminates the task cleanly with no release. -/
theorem c1_armed_race_semantics (d : Nat) :
    (∀ r, handle_mouse_up_timeout d (.chan (some .RestartTimer) :: .timeout :: r)
        = ((handle_mouse_up_timeout d r).1 + 1, (handle_mouse_up_timeout d r).2))
    ∧ (∀ r, run_timer d (.chan (some .RestartTimer) :: r)
        = ⟨d :: (run_timer d r).sleeps, (run_timer d r).consumed + 1, (run_timer d r).ret⟩)
    ∧ (∀ r, handle_mouse_up_timeout d
          (.chan (some .RestartTimer) :: .chan (some .RestartTimer) :: r)
        = handle_mouse_up_timeout d (.chan (some .RestartTimer) :: r))
    ∧ (∀ r, handle_mouse_up_timeout d
          (.chan (some .RestartTimer) :: .chan (some .CancelMouseUp) :: r)
        = handle_mouse_up_timeout d r)
    ∧ (∀ r, handle_mouse_up_timeout d
          (.chan (some .RestartTimer) :: .chan (some .TerminateThread) :: r)
        = (0, .exitedOk)) := by
  refine ⟨?_, ?_, ?_, ?_, ?_⟩
  · intro r; simp [handle_mouse_up_timeout, run_timer]
  · intro r; simp [run_timer]
  · intro r; simp [handle_mouse_up_timeout, run_timer]
  · intro r; simp [handle_mouse_up_timeout, run_timer]
  · intro r; simp [handle_mouse_up_timeout, run_timer]

/-- C2: in the idle outer loop, `CancelTimer` emits one release and
returns to idle, `CancelMouseUp` is a no-op, `TerminateThread` exits
the task cleanly, `RestartTimer` arms the timer (the task enters the
armed race with a sleep of the full delay in front), and a closed
channel exits the task cleanly. -/
theorem c2_idle_loop_semantics (d : Nat) :
    (∀ r, handle_mouse_up_timeout d (.chan (some .CancelTimer) :: r)
        = ((handle_mouse_up_timeout d r).1 + 1, (handle_mouse_up_timeout d r).2))
    ∧ (∀ r, handle_mouse_up_timeout d (.chan (some .CancelMouseUp) :: r)
        = handle_mouse_up_timeout d r)
    ∧ (∀ r, handle_mouse_up_timeout d (.chan (some .TerminateThread) :: r)
        = (0, .exitedOk))
    ∧ (∀ r, handle_mouse_up_timeout d (.chan (some .RestartTimer) :: r)
          = handleTimerResult d r (run_timer d r)
        ∧ (run_timer d r).sleeps.head? = some d)
    ∧ (∀ r, handle_mouse_up_timeout d (.chan none :: r) = (0, .exitedOk)) := by
  refine ⟨?_, ?_, ?_, ?_, ?_⟩
  · intro r; simp [handle_mouse_up_timeout]
  · intro r; simp [handle_mouse_up_timeout]
  · intro r; simp [handle_mouse_up_timeout]
  · intro r
    refine ⟨?_, run_timer_sleeps_head d r⟩
    simp [handle_mouse_up_timeout, handleTimerResult]
  · intro r; simp [handle_mouse_up_timeout]

/-- C4 counterexample: with the timer armed and the channel closed, the
controller emits a release (the release count is 1, not 0) before the
task exits, refuting the claim that it exits without emitting one. -/
theorem c4_counterexample :
    handle_mouse_up_timeout 5
      [Ev.chan (some ControlSignal.RestartTimer), Ev.chan none, Ev.chan none]
      = (1, Status.exitedOk) ∧ (1 : Nat) ≠ 0 := by
  constructor
  · simp [handle_mouse_up_timeout, run_timer]
  · decide

/-- C4 amended: if the channel closes while the release timer is armed,
the race in `run_timer` cannot distinguish the closure from sleep
expiry, so the controller emits exactly one release and then exits
cleanly when the outer receive observes the closure. -/
theorem c4_amended_close_while_armed (d : Nat) (r : List Ev) :
    handle_mouse_up_timeout d
      (.chan (some .RestartTimer) :: .chan none :: .chan none :: r)
      = (1, .exitedOk) := by
  simp [handle_mouse_up_timeout, run_timer]

theorem rel_to_int_abs_le (a : ℚ) : |(rel_to_int a : ℚ)| ≤ |a| := by
  unfold rel_to_int toI32saturating
  rcases lt_or_le 0 a with h | h
  · rw [if_pos h]
    have h0 : (0 : Int) ≤ ⌊a⌋ := Int.floor_nonneg.mpr h.le
    have hmin : (0 : Int) ≤ min (2 ^ 31 - 1) ⌊a⌋ := le_min (by norm_num) h0
    have hmax : max (-(2 ^ 31)) (min (2 ^ 31 - 1) ⌊a⌋) = min (2 ^ 31 - 1) ⌊a⌋ :=
      max_eq_right (le_trans (by norm_num) hmin)
    rw [hmax, abs_of_nonneg (by exact_mod_cast hmin : (0 : ℚ) ≤ _), abs_of_pos h]
    have h1 : (min (2 ^ 31 - 1) ⌊a⌋) ≤ ⌊a⌋ := min_le_right _ _
    calc ((min (2 ^ 31 - 1) ⌊a⌋ : Int) : ℚ) ≤ (⌊a⌋ : ℚ) := by exact_mod_cast h1
      _ ≤ a := Int.floor_le a
  · rw [if_neg (not_lt.mpr h)]
    have h0 : ⌈a⌉ ≤ 0 := Int.ceil_le.mpr (by exact_mod_cast h)
    have hmin : min (2 ^ 31 - 1) ⌈a⌉ = ⌈a⌉ :=
      min_eq_right (le_trans h0 (by norm_num))
    rw [hmin]
    have hle0 : max (-(2 ^ 31)) ⌈a⌉ ≤ 0 := max_le (by norm_num) h0
    rw [abs_of_nonpos (by exact_mod_cast hle0 :
          ((max (-(2 ^ 31)) ⌈a⌉ : Int) : ℚ) ≤ 0),
        abs_of_nonpos h]
    have h1 : ⌈a⌉ ≤ max (-(2 ^ 31)) ⌈a⌉ := le_max_right _ _
    have h2 : a ≤ ((max (-(2 ^ 31)) ⌈a⌉ : Int) : ℚ) :=
      le_trans (Int.le_ceil a) (by exact_mod_cast h1)
    linarith

theorem rel_to_int_sign (a : ℚ) :
    rel_to_int a = 0 ∨ (0 < rel_to_int a ∧ 0 < a) ∨ (rel_to_int a < 0 ∧ a < 0) := by
  unfold rel_to_int toI32saturating
  rcases lt_or_le 0 a with h | h
  · rw [if_pos h]
    have h0 : (0 : Int) ≤ ⌊a⌋ := Int.floor_nonneg.mpr h.le
    have hge : (0 : Int) ≤ max (-(2 ^ 31)) (min (2 ^ 31 - 1) ⌊a⌋) :=
      le_max_of_le_right (le_min (by norm_num) h0)
    rcases hge.eq_or_lt with heq | hlt
    · exact Or.inl heq.symm
    · exact Or.inr (Or.inl ⟨hlt, h⟩)
  · rw [if_neg (not_lt.mpr h)]
    have h0 : ⌈a⌉ ≤ 0 := Int.ceil_le.mpr (by exact_mod_cast h)
    have hmin : min (2 ^ 31 - 1) ⌈a⌉ = ⌈a⌉ :=
      min_eq_right (le_trans h0 (by norm_num))
    rw [hmin]
    have hle : max (-(2 ^ 31)) ⌈a⌉ ≤ 0 := max_le (by norm_num) h0
    rcases hle.eq_or_lt with heq | hlt
    · exact Or.inl heq
    · refine Or.inr (Or.inr ⟨hlt, ?_⟩)
      rcases h.lt_or_eq with hneg | heq0
      · exact hneg
      · exfalso
        subst heq0
        norm_num at hlt

/-- C3: the deltas handed to `mouse_move_relative` are converted by
truncation toward zero (floor of a positive value, ceil otherwise, as
`rel_to_int` does) and emitted as relative-X, relative-Y, sync; every
emitted integer `i` derived from a real value `a` satisfies
`|i| ≤ |a|`, and its sign is zero or the sign of `a`. -/
theorem c3_truncation_toward_zero (x y : ℚ) :
    mouse_move_relative true x y
      = Except.ok [EmitEv.relX (rel_to_int x), EmitEv.relY (rel_to_int y),
          EmitEv.syncReport]
    ∧ (∀ a : ℚ, |(rel_to_int a : ℚ)| ≤ |a|)
    ∧ (∀ a : ℚ,
        rel_to_int a = 0 ∨ (0 < rel_to_int a ∧ 0 < a) ∨ (rel_to_int a < 0 ∧ a < 0)) :=
  ⟨rfl, rel_to_int_abs_le, rel_to_int_sign⟩

/-- C5: on the clean-exit path with every step succeeding, the program
sends `TerminateThread`, awaits the controller, emits the final
defensive release, and destroys the virtual device, in that order and
with exactly one destroy. -/
theorem c5_clean_exit_sequence :
    clean_exit true true true true true
      = ([Act.sendTerminate, Act.awaitCtrl, Act.finalRelease, Act.destroyDev], true)
    ∧ (clean_exit true true true true true).1.count Act.destroyDev = 1 := by
  constructor
  · rfl
  · decide

/-- C6: evaluation at the failing input. Transient per-event errors in
a batch are logged and the loop continues, and a finished controller
task with an error is propagated as a fatal error; but `main` then
performs neither the best-effort release nor the destroy on that
error path (its cleanup action list is empty), contradicting the
claimed orderly shutdown with best-effort release and destroy. -/
theorem c6_structural_error_skips_cleanup :
    process_batch false [true, false] false (Except.error 3 : Except Nat Unit)
      = (["dispatch error logged", "translate error logged"],
         SuperviseResult.continueLoop)
    ∧ (process_batch true [] true (Except.error 3 : Except Nat Unit)).2
      = SuperviseResult.propagate 3
    ∧ main_cleanup true true false = ([], false)
    ∧ (main_cleanup true true false).1.count Act.finalRelease = 0
    ∧ (main_cleanup true true false).1.count Act.destroyDev = 0 := by
  refine ⟨rfl, rfl, rfl, ?_, ?_⟩ <;> decide

/-- C7: a successful `mouse_up` emits button-up plus sync regardless
of the `mouse_is_down` flag (including when the button is already
released), and afterwards the flag is false. -/
theorem c7_release_always_emits (v : VirtualTrackpad) :
    (mouse_up true v).2 = Except.ok [EmitEv.buttonUp, EmitEv.syncReport]
    ∧ (mouse_up true v).1.mouse_is_down = false :=
  ⟨rfl, rfl⟩

/-- C8: a missing `acceleration`, `drag_end_delay` or `response_time`
field deserializes to 1, 0 ms and 5 ms respectively; unknown fields do
not affect the result; and a parse error (absent or unparseable file)
yields the full default configuration, whose fields are those same
defaults, with `init_cfg` total so the program continues. -/
theorem c8_config_defaults (j : ConfigJson) (u : List String) (e : String) :
    (deserialize_Configuration { j with acceleration := none }).acceleration = 1
    ∧ (deserialize_Configuration { j with drag_end_delay := none }).drag_end_delay = 0
    ∧ (deserialize_Configuration { j with response_time := none }).response_time = 5
    ∧ deserialize_Configuration { j with unknown_fields := u }
        = deserialize_Configuration j
    ∧ init_cfg (.error e) = default_configuration
    ∧ default_configuration.acceleration = 1
    ∧ default_configuration.drag_end_delay = 0
    ∧ default_configuration.response_time = 5 :=
  ⟨rfl, rfl, rfl, rfl, rfl, rfl, rfl, rfl⟩

/-- C9: the supervision check hands the finished task's result to
`unwrap_err`, so a task that finished with `Ok` is not propagated as
an error; the check panics instead. -/
theorem c9_ok_result_panics (a : Type) (v : a) :
    check_listener true (Except.ok v : Except Nat a) = SuperviseResult.panics
    ∧ unwrap_err (Except.ok v : Except Nat a) = none :=
  ⟨rfl, rfl⟩

/-- C10: when the underlying write fails, `mouse_down` and `mouse_up`
return the I/O error with the `mouse_is_down` flag (the whole state)
unchanged; the flag is updated only after a successful write. -/
theorem c10_state_unchanged_on_write_error (v : VirtualTrackpad) :
    mouse_down false v = (v, Except.error ())
    ∧ mouse_up false v = (v, Except.error ())
    ∧ (mouse_down true v).1.mouse_is_down = true
    ∧ (mouse_up true v).1.mouse_is_down = false :=
  ⟨rfl, rfl, rfl, rfl⟩
